import Mathlib

/-!
Verification of the TwistedTornadoProbabilityCalculator inference core.

The service logic (feature extraction with zero-fill, scaling and model
dispatch as injected functions, clamping to [50, 400], rounding to one
decimal place, confidence labelling, batch prediction) is embedded from
models/tornado_predictor.py.  The artifact exporter for the kernel model is
embedded from models/convert_model_to_json.py.  The kernel decision
function, the decision-tree traversal and the artifact loader are the parts
of the inference engine that live outside this repository's Python sources;
those are modelled from the specification and marked as such.

Real-valued quantities are embedded as rationals wherever the computation
is field arithmetic and comparisons; the kernel decision function, which
uses the exponential, is embedded over the reals.
-/

/-- A keyed atmospheric reading: a finite dictionary from field names to
numbers, embedded as an association list (Python dict lookups become
List.lookup). -/
abbrev Reading : Type := List (String × ℚ)

/-- Python dict.get with default 0: `atmospheric_data.get(key, 0)` in
TornadoPredictor.predict. -/
def dictGet (d : Reading) (k : String) : ℚ :=
  (d.lookup k).getD 0

/-- The canonical ordered feature-name list set in
TornadoPredictor.__init__ (tornado_predictor.py lines 21-25). -/
def feature_names : List String :=
  ["CAPE", "SRH", "Lapse_0_3km", "PWAT", "Temperature", "Dewpoint",
   "CAPE_3km", "Lapse_3_6km", "Surface_RH", "RH_700_500",
   "Storm_Motion", "Total_TVS_Peaks"]

/-- The feature-extraction step of TornadoPredictor.predict
(tornado_predictor.py lines 41-54): twelve explicit dict gets, in the
canonical order, each defaulting to 0 when the key is absent. -/
def extractFeatures (atmospheric_data : Reading) : List ℚ :=
  [dictGet atmospheric_data "CAPE",
   dictGet atmospheric_data "SRH",
   dictGet atmospheric_data "Lapse_0_3km",
   dictGet atmospheric_data "PWAT",
   dictGet atmospheric_data "Temperature",
   dictGet atmospheric_data "Dewpoint",
   dictGet atmospheric_data "CAPE_3km",
   dictGet atmospheric_data "Lapse_3_6km",
   dictGet atmospheric_data "Surface_RH",
   dictGet atmospheric_data "RH_700_500",
   dictGet atmospheric_data "Storm_Motion",
   dictGet atmospheric_data "Total_TVS_Peaks"]

/-- Round half to even at integer precision, the rounding mode of Python's
built-in round. -/
def roundHalfEven (q : ℚ) : ℤ :=
  if q - ⌊q⌋ < 1/2 then ⌊q⌋
  else if 1/2 < q - ⌊q⌋ then ⌊q⌋ + 1
  else if ⌊q⌋ % 2 = 0 then ⌊q⌋ else ⌊q⌋ + 1

/-- Python round(x, 1): round to one decimal place, half to even. -/
def round1 (q : ℚ) : ℚ :=
  (roundHalfEven (10 * q) : ℚ) / 10

/-- The companion metadata (model_info.json) fields used by the
predictor. -/
structure ModelInfo where
  model_name : String
  test_r2_score : ℚ
  test_rmse : ℚ

deriving instance DecidableEq for ModelInfo

/-- The dictionary returned by TornadoPredictor.predict
(tornado_predictor.py lines 65-72). -/
structure PredictionResult where
  predicted_windspeed_mph : ℚ
  model_name : String
  model_r2_score : ℚ
  model_rmse : ℚ
  confidence : String
  features_used : List String

deriving instance DecidableEq for PredictionResult

/-- The state of a constructed TornadoPredictor: the loaded model and
scaler are opaque loaded objects exposing their transform/predict
capability (joblib.load results in __init__), plus the parsed
model_info.json. -/
structure TornadoPredictor where
  model : List ℚ → ℚ
  scaler : List ℚ → List ℚ
  model_info : ModelInfo

/-- TornadoPredictor.predict (tornado_predictor.py lines 30-72): extract
features in canonical order with 0 defaults, scale, run the model, clamp
into [50, 400] via max(50, min(400, prediction)), round to one decimal
place, and assemble the result dictionary with metadata and the confidence
label (EXCELLENT when test R2 exceeds 0.95, else GOOD). -/
def TornadoPredictor.predict (p : TornadoPredictor) (atmospheric_data : Reading) :
    PredictionResult :=
  let features : List ℚ := extractFeatures atmospheric_data
  let features_scaled : List ℚ := p.scaler features
  let prediction : ℚ := p.model features_scaled
  let bounded : ℚ := max 50 (min 400 prediction)
  { predicted_windspeed_mph := round1 bounded
    model_name := p.model_info.model_name
    model_r2_score := p.model_info.test_r2_score
    model_rmse := p.model_info.test_rmse
    confidence := if p.model_info.test_r2_score > 95/100 then "EXCELLENT" else "GOOD"
    features_used := feature_names }

/-- TornadoPredictor.predict_batch (tornado_predictor.py lines 74-79): a
loop appending predict(data) for each record in order. -/
def TornadoPredictor.predict_batch (p : TornadoPredictor) (data_list : List Reading) :
    List PredictionResult :=
  data_list.foldl (fun results data => results ++ [p.predict data]) []

/-- The error taxonomy of the specification (section 7): LoadError,
CorruptArtifact, ShapeMismatch. -/
inductive PredictError where
  | loadError
  | corruptArtifact
  | shapeMismatch

deriving instance DecidableEq for PredictError

/-- One serialized decision tree as exported by
extract_random_forest_model (export_random_forest.py lines 26-34): five
parallel arrays giving split feature, split threshold, flattened leaf
values, and left/right child indices (-1 is the no-child sentinel). -/
structure TreeModel where
  feature : List ℤ
  threshold : List ℚ
  value : List ℚ
  children_left : List ℤ
  children_right : List ℤ

deriving instance DecidableEq for TreeModel

/-- Number of nodes of a serialized tree, measured on the child arrays. -/
def TreeModel.nodeCount (t : TreeModel) : ℕ :=
  t.children_left.length

/-- Modelled from the spec: the per-tree traversal of the
EnsembleRegressor (section 4.4), whose implementation is the JavaScript
consumer of the exported JSON and is not among the repository's Python
sources.  Start at the root; a node is a leaf iff both children are the
sentinel -1; otherwise compare the input coordinate at the split feature
against the threshold and descend left on less-or-equal, right otherwise.
Every array access is bounds-checked: an index outside the node arrays is
the semantically inconsistent data the spec calls CorruptArtifact.  Fuel
bounds the number of steps so that traversal of a malformed (cyclic) tree
terminates with CorruptArtifact instead of looping. -/
def treeTraverse (t : TreeModel) (x : List ℚ) : ℕ → ℕ → Except PredictError ℚ
  | 0, _ => Except.error PredictError.corruptArtifact
  | fuel + 1, i =>
    match t.children_left.get? i, t.children_right.get? i with
    | some l, some r =>
      if l = -1 ∧ r = -1 then
        match t.value.get? i with
        | some v => Except.ok v
        | none => Except.error PredictError.corruptArtifact
      else
        match t.feature.get? i, t.threshold.get? i with
        | some f, some th =>
          if f < 0 then Except.error PredictError.corruptArtifact
          else
            match x.get? f.toNat with
            | some xv =>
              if (if xv ≤ th then l else r) < 0 then
                Except.error PredictError.corruptArtifact
              else treeTraverse t x fuel (if xv ≤ th then l else r).toNat
            | none => Except.error PredictError.shapeMismatch
        | _, _ => Except.error PredictError.corruptArtifact
    | _, _ => Except.error PredictError.corruptArtifact

/-- Modelled from the spec: a single tree's prediction, traversing from
node 0.  A well-formed (acyclic) tree reaches a leaf within nodeCount
steps, so the fuel nodeCount + 1 never runs out on well-formed data. -/
def treePredict (t : TreeModel) (x : List ℚ) : Except PredictError ℚ :=
  treeTraverse t x (t.nodeCount + 1) 0

/-- Modelled from the spec: whole-ensemble prediction (section 4.4) — the
unweighted arithmetic mean of all trees' outputs. -/
def ensemblePredict (trees : List TreeModel) (x : List ℚ) : Except PredictError ℚ :=
  match trees.mapM (fun t => treePredict t x) with
  | Except.error e => Except.error e
  | Except.ok outputs => Except.ok (outputs.sum / (trees.length : ℚ))

/-- The per-feature affine scaler parameters stored in every artifact
(scaler_mean / scaler_scale fields of both JSON shapes). -/
structure ScalerParams where
  mean : List ℚ
  scale : List ℚ

deriving instance DecidableEq for ScalerParams

/-- The tagged union of the two supported model families (section 3),
holding the family-specific numeric payload of the artifact file. -/
inductive ModelFamily where
  | svr (support_vectors : List (List ℚ)) (dual_coefficients : List ℚ)
      (intercept : ℚ)
  | randomForest (trees : List TreeModel)

/-- The deserialized, immutable artifact: scaler parameters plus the
family payload. -/
structure ModelArtifact where
  scaler : ScalerParams
  family : ModelFamily

/-- Modelled from the spec: the artifact loader (sections 4.2 and 4.5),
whose implementation is the JavaScript consumer of the exported JSON and
is not among the repository's Python sources.  Loading validates the
structural invariants — twelve scaler entries and strictly positive scale
in every position — and fails with LoadError before any ModelArtifact is
produced. -/
def loadArtifact (scaler_mean scaler_scale : List ℚ) (family : ModelFamily) :
    Except PredictError ModelArtifact :=
  if scaler_mean.length = 12 ∧ scaler_scale.length = 12 then
    if ∃ s ∈ scaler_scale, s ≤ 0 then Except.error PredictError.loadError
    else Except.ok { scaler := { mean := scaler_mean, scale := scaler_scale }, family := family }
  else Except.error PredictError.loadError

/-- The three kernel kinds of the kernel-model artifact. -/
inductive KernelKind where
  | linear
  | rbf
  | poly

/-- Dot product of two feature vectors. -/
def dotList (a b : List ℝ) : ℝ :=
  (List.zipWith (fun u v => u * v) a b).sum

/-- Squared euclidean distance of two feature vectors. -/
def sqDist (a b : List ℝ) : ℝ :=
  (List.zipWith (fun u v => (u - v) ^ 2) a b).sum

/-- Modelled from the spec: the kernel evaluation of the KernelRegressor
(section 4.3), whose numerically exact re-implementation is the JavaScript
consumer of the exported JSON and is not among the repository's Python
sources.  linear is the dot product, rbf is exp(-gamma * squared
distance), poly is (gamma * dot + coef0) ^ degree. -/
noncomputable def kernelValue (kind : KernelKind) (gamma coef0 : ℝ) (degree : ℕ)
    (sv x : List ℝ) : ℝ :=
  match kind with
  | KernelKind.linear => dotList sv x
  | KernelKind.rbf => Real.exp (-(gamma * sqDist sv x))
  | KernelKind.poly => (gamma * dotList sv x + coef0) ^ degree

/-- The kernel-model artifact payload (section 3): kernel kind and
hyperparameters, support vectors, dual coefficients, intercept. -/
structure KernelRegressor where
  kind : KernelKind
  gamma : ℝ
  coef0 : ℝ
  degree : ℕ
  support_vectors : List (List ℝ)
  dual_coefficients : List ℝ
  intercept : ℝ

/-- Modelled from the spec: the KernelRegressor decision function
(section 4.3) — accumulate dualCoef[j] * K(sv_j, x) over the support
vectors, then add the intercept. -/
noncomputable def KernelRegressor.predictRaw (m : KernelRegressor) (x : List ℝ) : ℝ :=
  (List.zipWith
    (fun d sv => d * kernelValue m.kind m.gamma m.coef0 m.degree sv x)
    m.dual_coefficients m.support_vectors).sum + m.intercept

/-- A scalar JSON value as written by the exporters: a string or a
number. -/
inductive JsonValue where
  | str (s : String)
  | num (q : ℚ)

deriving instance DecidableEq for JsonValue

/-- The sklearn SVR gamma parameter as held on the loaded model object:
either one of the symbolic training-time settings, or a numeric value.
The repository's trainer searches the grid gamma in ['scale', 'auto']
(models/tornado_model_trainer.py line 168), so the fitted model always
holds a symbolic setting. -/
inductive GammaSetting where
  | scale
  | auto
  | numeric (g : ℚ)

deriving instance DecidableEq for GammaSetting

/-- Python str(model.gamma) as applied by the exporter. -/
def pythonStrOfGamma : GammaSetting → String
  | GammaSetting.scale => "scale"
  | GammaSetting.auto => "auto"
  | GammaSetting.numeric g => toString g

/-- The attributes of the loaded sklearn SVR object that
convert_svm_model_to_json reads. -/
structure SvmModel where
  kernel : String
  C : ℚ
  gamma : GammaSetting
  epsilon : ℚ
  intercept_ : List ℚ
  support_vectors_ : List (List ℚ)
  dual_coef_ : List (List ℚ)

/-- The attributes of the loaded sklearn StandardScaler that the exporters
read. -/
structure ScalerModel where
  mean_ : List ℚ
  scale_ : List ℚ

/-- The model_data JSON object assembled by convert_svm_model_to_json
(convert_model_to_json.py lines 25-43); scalar fields carry their JSON
value kind. -/
structure SvmExport where
  model_type : JsonValue
  kernel : JsonValue
  C : JsonValue
  gamma : JsonValue
  epsilon : JsonValue
  intercept : JsonValue
  support_vectors : List (List ℚ)
  dual_coefficients : List ℚ
  scaler_mean : List ℚ
  scaler_scale : List ℚ
  feature_names : List String

/-- convert_svm_model_to_json (convert_model_to_json.py lines 12-43):
C, epsilon and intercept are exported through float(...), while gamma is
exported through str(model.gamma); intercept takes the head of the
intercept_ array and dual_coefficients the first row of dual_coef_. -/
def convert_svm_model_to_json (model : SvmModel) (scaler : ScalerModel) : SvmExport :=
  { model_type := JsonValue.str "SVR"
    kernel := JsonValue.str model.kernel
    C := JsonValue.num model.C
    gamma := JsonValue.str (pythonStrOfGamma model.gamma)
    epsilon := JsonValue.num model.epsilon
    intercept := JsonValue.num (model.intercept_.headD 0)
    support_vectors := model.support_vectors_
    dual_coefficients := model.dual_coef_.headD []
    scaler_mean := scaler.mean_
    scaler_scale := scaler.scale_
    feature_names := feature_names }

lemma floor_le_roundHalfEven (q : ℚ) : ⌊q⌋ ≤ roundHalfEven q := by
  unfold roundHalfEven
  split_ifs <;> omega

lemma roundHalfEven_le_ceil (q : ℚ) : roundHalfEven q ≤ ⌈q⌉ := by
  have hup : ¬ q - ⌊q⌋ < 1/2 → ⌊q⌋ + 1 ≤ ⌈q⌉ := by
    intro h1
    have hq : (⌊q⌋ : ℚ) < q := by
      have := not_lt.mp h1
      linarith
    have := Int.lt_ceil.mpr hq
    omega
  unfold roundHalfEven
  split_ifs with h1 h2 h3
  · exact Int.floor_le_ceil q
  · exact hup h1
  · exact Int.floor_le_ceil q
  · exact hup h1

lemma round1_bounds (y : ℚ) (h1 : 50 ≤ y) (h2 : y ≤ 400) :
    50 ≤ round1 y ∧ round1 y ≤ 400 := by
  have hf : (500 : ℤ) ≤ ⌊10 * y⌋ := by
    apply Int.le_floor.mpr
    push_cast
    linarith
  have hc : ⌈10 * y⌉ ≤ 4000 := by
    apply Int.ceil_le.mpr
    push_cast
    linarith
  have h500 : (500 : ℤ) ≤ roundHalfEven (10 * y) :=
    le_trans hf (floor_le_roundHalfEven (10 * y))
  have h4000 : roundHalfEven (10 * y) ≤ 4000 :=
    le_trans (roundHalfEven_le_ceil (10 * y)) hc
  have hlo : (500 : ℚ) ≤ (roundHalfEven (10 * y) : ℚ) := by exact_mod_cast h500
  have hhi : (roundHalfEven (10 * y) : ℚ) ≤ 4000 := by exact_mod_cast h4000
  unfold round1
  constructor <;> linarith

/-- C1: the windspeed estimate returned by predict equals the raw model
prediction clamped into [50, 400] and then rounded to one decimal place,
and the returned estimate always lies in [50, 400]. -/
theorem predict_clamped_rounded (p : TornadoPredictor) (d : Reading) :
    (p.predict d).predicted_windspeed_mph
        = round1 (max 50 (min 400 (p.model (p.scaler (extractFeatures d))))) ∧
    50 ≤ (p.predict d).predicted_windspeed_mph ∧
    (p.predict d).predicted_windspeed_mph ≤ 400 := by
  have key : (p.predict d).predicted_windspeed_mph
      = round1 (max 50 (min 400 (p.model (p.scaler (extractFeatures d))))) := rfl
  have hb1 : (50 : ℚ) ≤ max 50 (min 400 (p.model (p.scaler (extractFeatures d)))) :=
    le_max_left _ _
  have hb2 : max 50 (min 400 (p.model (p.scaler (extractFeatures d)))) ≤ 400 :=
    max_le (by norm_num) (min_le_left _ _)
  have hr := round1_bounds _ hb1 hb2
  exact ⟨key, by rw [key]; exact hr.1, by rw [key]; exact hr.2⟩

/-- C2: the schema-mapping step produces exactly twelve values in the
fixed canonical feature order, every canonical key absent from the reading
is filled with exactly 0, and the mapping is a total function (no error on
missing or extra keys). -/
theorem mapToVector_canonical (d : Reading) :
    (extractFeatures d).length = 12 ∧
    extractFeatures d = feature_names.map (fun k => (d.lookup k).getD 0) ∧
    ∀ k ∈ feature_names, d.lookup k = none → dictGet d k = 0 := by
  refine ⟨rfl, rfl, ?_⟩
  intro k _ hk
  simp [dictGet, hk]

theorem mapToVector_canonical_witness :
    dictGet [("CAPE", (3 : ℚ))] "SRH" = 0 :=
  (mapToVector_canonical [("CAPE", (3 : ℚ))]).2.2 "SRH" (by decide) (by decide)

lemma foldl_append_eq_map {α β : Type} (f : α → β) :
    ∀ (l : List α) (acc : List β),
      l.foldl (fun rs d => rs ++ [f d]) acc = acc ++ l.map f := by
  intro l
  induction l with
  | nil => intro acc; simp
  | cons a l ih => intro acc; simp [ih]

/-- C5: predict_batch is the order-preserving map of predict over the
input sequence, and in particular returns exactly as many results as there
are readings. -/
theorem predict_batch_is_map (p : TornadoPredictor) (data_list : List Reading) :
    p.predict_batch data_list = data_list.map p.predict ∧
    (p.predict_batch data_list).length = data_list.length := by
  have h : p.predict_batch data_list = data_list.map p.predict := by
    unfold TornadoPredictor.predict_batch
    simpa using foldl_append_eq_map p.predict data_list []
  exact ⟨h, by rw [h]; simp⟩

/-- C6: the confidence label is EXCELLENT iff the reported test R2
strictly exceeds 0.95, and GOOD iff it is at most 0.95; no third tier
exists. -/
theorem confidence_threshold (p : TornadoPredictor) (d : Reading) :
    ((p.predict d).confidence = "EXCELLENT" ↔ 95/100 < p.model_info.test_r2_score) ∧
    ((p.predict d).confidence = "GOOD" ↔ p.model_info.test_r2_score ≤ 95/100) := by
  have hc : (p.predict d).confidence
      = (if p.model_info.test_r2_score > 95/100 then "EXCELLENT" else "GOOD") := rfl
  have hne : ("EXCELLENT" : String) ≠ "GOOD" := by decide
  rw [hc]
  by_cases h : 95/100 < p.model_info.test_r2_score
  · rw [if_pos h]
    constructor
    · exact ⟨fun _ => h, fun _ => rfl⟩
    · exact ⟨fun habs => absurd habs hne, fun hle => absurd hle (not_le.mpr h)⟩
  · rw [if_neg h]
    constructor
    · exact ⟨fun habs => absurd habs.symm hne, fun hlt => absurd hlt h⟩
    · exact ⟨fun _ => not_lt.mp h, fun _ => rfl⟩

/-- C10: predictions depend only on the twelve canonical keys of the
reading (and the loaded artifact); readings agreeing on the canonical keys
produce identical results regardless of extra keys. -/
theorem predict_extra_keys_irrelevant (p : TornadoPredictor) (r1 r2 : Reading)
    (h : ∀ k ∈ feature_names, r1.lookup k = r2.lookup k) :
    p.predict r1 = p.predict r2 := by
  have e : extractFeatures r1 = extractFeatures r2 := by
    simp only [extractFeatures, dictGet]
    rw [h "CAPE" (by decide), h "SRH" (by decide), h "Lapse_0_3km" (by decide),
      h "PWAT" (by decide), h "Temperature" (by decide), h "Dewpoint" (by decide),
      h "CAPE_3km" (by decide), h "Lapse_3_6km" (by decide), h "Surface_RH" (by decide),
      h "RH_700_500" (by decide), h "Storm_Motion" (by decide),
      h "Total_TVS_Peaks" (by decide)]
  unfold TornadoPredictor.predict
  rw [e]

theorem predict_extra_keys_irrelevant_witness :
    TornadoPredictor.predict
        { model := fun v => v.sum, scaler := fun v => v,
          model_info := { model_name := "SVM", test_r2_score := 9852/10000,
                          test_rmse := 461/100 } }
        [("CAPE", 100), ("ExtraKey", 5)]
      = TornadoPredictor.predict
        { model := fun v => v.sum, scaler := fun v => v,
          model_info := { model_name := "SVM", test_r2_score := 9852/10000,
                          test_rmse := 461/100 } }
        [("OtherExtra", 7), ("CAPE", 100)] :=
  predict_extra_keys_irrelevant _ _ _ (by decide)

/-- C7: loading an artifact whose scaler scale sequence contains any entry
at most 0 fails with LoadError at artifact-load time and produces no
usable ModelArtifact. -/
theorem load_rejects_nonpositive_scale (scaler_mean scaler_scale : List ℚ)
    (family : ModelFamily) (h : ∃ s ∈ scaler_scale, s ≤ 0) :
    loadArtifact scaler_mean scaler_scale family = Except.error PredictError.loadError ∧
    ∀ a : ModelArtifact,
      loadArtifact scaler_mean scaler_scale family ≠ Except.ok a := by
  have he : loadArtifact scaler_mean scaler_scale family
      = Except.error PredictError.loadError := by
    unfold loadArtifact
    by_cases h1 : scaler_mean.length = 12 ∧ scaler_scale.length = 12
    · rw [if_pos h1, if_pos h]
    · rw [if_neg h1]
  refine ⟨he, ?_⟩
  intro a hcontra
  rw [he] at hcontra
  exact Except.noConfusion hcontra

theorem load_rejects_nonpositive_scale_witness :
    loadArtifact [0, 0, 0, 0, 0, 0, 0, 0, 0, 0, 0, 0]
        [1, 1, 0, 1, 1, 1, 1, 1, 1, 1, 1, 1] (ModelFamily.randomForest [])
      = Except.error PredictError.loadError :=
  (load_rejects_nonpositive_scale _ _ _ (by decide)).1

lemma sqDist_self (x : List ℝ) : sqDist x x = 0 := by
  induction x with
  | nil => simp [sqDist]
  | cons a l ih =>
    simp only [sqDist, List.zipWith_cons_cons, List.sum_cons] at ih ⊢
    simp [ih]

/-- C3: the kernel regressor's prediction is the dual-coefficient-weighted
sum of kernel values over the support vectors plus the intercept, with the
rbf kernel exp(-gamma * squared distance); consequently a regressor whose
single support vector equals the input, with dual coefficient 1, intercept
0, rbf kernel and gamma 1, predicts exactly 1 at that input. -/
theorem kernel_decision_function :
    (∀ (m : KernelRegressor) (x : List ℝ),
        m.predictRaw x
          = (List.zipWith
              (fun d sv => d * kernelValue m.kind m.gamma m.coef0 m.degree sv x)
              m.dual_coefficients m.support_vectors).sum + m.intercept) ∧
    (∀ x : List ℝ,
        KernelRegressor.predictRaw
          { kind := KernelKind.rbf, gamma := 1, coef0 := 0, degree := 3,
            support_vectors := [x], dual_coefficients := [1], intercept := 0 } x
          = 1) := by
  refine ⟨fun m x => rfl, fun x => ?_⟩
  simp [KernelRegressor.predictRaw, kernelValue, sqDist_self]

/-- C4: the ensemble prediction is the unweighted arithmetic mean of the
trees' outputs; a single-leaf tree returns its root value for any input,
and the two-leaf-tree ensemble with values 100 and 200 predicts 150. -/
theorem ensemble_mean_of_leaves :
    (∀ (trees : List TreeModel) (x : List ℚ) (outputs : List ℚ),
        trees.mapM (fun t => treePredict t x) = Except.ok outputs →
        ensemblePredict trees x = Except.ok (outputs.sum / (trees.length : ℚ))) ∧
    (∀ (x : List ℚ) (v : ℚ),
        treePredict
          { feature := [-2], threshold := [0], value := [v],
            children_left := [-1], children_right := [-1] } x = Except.ok v) ∧
    (∀ x : List ℚ,
        ensemblePredict
          [{ feature := [-2], threshold := [0], value := [100],
             children_left := [-1], children_right := [-1] },
           { feature := [-2], threshold := [0], value := [200],
             children_left := [-1], children_right := [-1] }] x
          = Except.ok 150) := by
  have hmean : ∀ (trees : List TreeModel) (x : List ℚ) (outputs : List ℚ),
      trees.mapM (fun t => treePredict t x) = Except.ok outputs →
      ensemblePredict trees x = Except.ok (outputs.sum / (trees.length : ℚ)) := by
    intro trees x outputs h
    unfold ensemblePredict
    rw [h]
  refine ⟨hmean, fun x v => rfl, ?_⟩
  intro x
  have h := hmean
      [{ feature := [-2], threshold := [0], value := [100],
         children_left := [-1], children_right := [-1] },
       { feature := [-2], threshold := [0], value := [200],
         children_left := [-1], children_right := [-1] }] x [100, 200] rfl
  rw [h]
  norm_num

theorem ensemble_mean_of_leaves_witness :
    ensemblePredict
        [{ feature := [-2], threshold := [0], value := [100],
           children_left := [-1], children_right := [-1] },
         { feature := [-2], threshold := [0], value := [200],
           children_left := [-1], children_right := [-1] }] []
      = Except.ok 150 := by
  have h := ensemble_mean_of_leaves.1
      [{ feature := [-2], threshold := [0], value := [100],
         children_left := [-1], children_right := [-1] },
       { feature := [-2], threshold := [0], value := [200],
         children_left := [-1], children_right := [-1] }] [] [100, 200] rfl
  rw [h]
  norm_num

/-- C8: traversal that reaches a node index outside the tree's node
arrays fails with CorruptArtifact (first conjunct); any value a traversal
returns is one actually stored in the tree's value array, so no read
escapes the arrays (second conjunct); and a concrete malformed tree whose
root points to an out-of-range child fails with CorruptArtifact from the
root (third conjunct).  Totality of treeTraverse itself rules out
non-termination. -/
theorem traverse_oob (t : TreeModel) (x : List ℚ) :
    (∀ fuel i, t.nodeCount ≤ i →
        treeTraverse t x (fuel + 1) i = Except.error PredictError.corruptArtifact) ∧
    (∀ fuel i v, treeTraverse t x fuel i = Except.ok v → v ∈ t.value) ∧
    treePredict { feature := [0], threshold := [0], value := [7],
                  children_left := [9], children_right := [9] } [1]
      = Except.error PredictError.corruptArtifact := by
  refine ⟨?_, ?_, ?_⟩
  · intro fuel i hge
    have hnone : t.children_left[i]? = none := by
      rw [← List.get?_eq_getElem?]
      exact List.get?_eq_none.mpr hge
    cases hcr : t.children_right[i]? <;> simp [treeTraverse, hnone, hcr]
  · intro fuel
    induction fuel with
    | zero =>
      intro i v h
      simp only [treeTraverse] at h
      exact absurd h (by simp)
    | succ n ih =>
      intro i v h
      simp only [treeTraverse] at h
      split at h
      · split at h
        · split at h
          · rename_i v2 hv
            obtain rfl : v2 = v := by simpa using h
            exact List.get?_mem hv
          · simp at h
        · split at h
          · split at h
            · simp at h
            · split at h
              · split at h <;> split at h <;>
                  first
                  | simp at h
                  | exact ih _ _ h
              · simp at h
          · simp at h
      · simp at h
  · rfl

theorem traverse_oob_witness :
    treeTraverse
        { feature := [5], threshold := [0], value := [7],
          children_left := [9], children_right := [9] } [] 1 9
      = Except.error PredictError.corruptArtifact :=
  (traverse_oob
      { feature := [5], threshold := [0], value := [7],
        children_left := [9], children_right := [9] } []).1 0 9 (by decide)

/-- C9: convert_svm_model_to_json serializes the gamma field through
Python str(model.gamma), so the exported gamma is a JSON string (for the
repository's trained models, the symbolic setting "scale" or "auto"), and
is never the numeric JSON value the artifact contract requires. -/
theorem gamma_exported_via_str (model : SvmModel) (scaler : ScalerModel) :
    (convert_svm_model_to_json model scaler).gamma
        = JsonValue.str (pythonStrOfGamma model.gamma) ∧
    ∀ q : ℚ, (convert_svm_model_to_json model scaler).gamma ≠ JsonValue.num q := by
  refine ⟨rfl, ?_⟩
  intro q hcontra
  simp [convert_svm_model_to_json] at hcontra

theorem gamma_exported_via_str_witness :
    (convert_svm_model_to_json
        { kernel := "rbf", C := 100, gamma := GammaSetting.scale, epsilon := 1/10,
          intercept_ := [194], support_vectors_ := [], dual_coef_ := [[]] }
        { mean_ := [], scale_ := [] }).gamma = JsonValue.str "scale" ∧
    (convert_svm_model_to_json
        { kernel := "rbf", C := 100, gamma := GammaSetting.scale, epsilon := 1/10,
          intercept_ := [194], support_vectors_ := [], dual_coef_ := [[]] }
        { mean_ := [], scale_ := [] }).gamma ≠ JsonValue.num (1/100) :=
  ⟨(gamma_exported_via_str
      { kernel := "rbf", C := 100, gamma := GammaSetting.scale, epsilon := 1/10,
        intercept_ := [194], support_vectors_ := [], dual_coef_ := [[]] }
      { mean_ := [], scale_ := [] }).1,
   (gamma_exported_via_str
      { kernel := "rbf", C := 100, gamma := GammaSetting.scale, epsilon := 1/10,
        intercept_ := [194], support_vectors_ := [], dual_coef_ := [[]] }
      { mean_ := [], scale_ := [] }).2 (1/100)⟩
